import Mathlib

/-!
Verification of the chatuino emote display pipeline.

Shallow embedding of the Go sources:
  * `sixelimg` (display_manager.go): `DisplayManager.Convert`, the two cache
    tiers (in-memory session cache backed by a `syncmap.Map`, persistent
    on-disk cache backed by an `afero.Fs`), `cacheDecodedImage`, `openCached`,
    `convertImageBytes`, `convertSingleImage`, `CleanupOldImagesCommand`.
  * `emote` (emote.go): `Emote`, `EmoteSet.GetByText`.
  * `twitch/ffz` (api.go, http.go): `doRequest`, `GetGlobalEmotes`, `APIError`.

Modelling decisions (each noted again at the definition it concerns):
  * the `syncmap.Map` session cache and the in-memory `afero` filesystem are
    modelled as association lists with overwrite-on-store;
  * `float32` arithmetic is modelled by exact rational pairs (`GoFloat`);
    the claims proved depend only on determinism of the arithmetic, not on
    rounding of binary floating point;
  * external image decoders and the sixel encoder are modelled as
    deterministic functions on an abstract image value;
  * `zlib` compression is modelled by a tagged file payload whose
    decompression returns exactly the compressed string (the writer/reader
    pair of `compress/zlib` round-trips); corrupt streams are a separate
    file-payload constructor on which decompression fails;
  * wall-clock time (`time.Now`, `time.Since`) is passed in explicitly.
-/

namespace Chatuino

instance {ε α : Type} [DecidableEq ε] [DecidableEq α] : DecidableEq (Except ε α) :=
  fun a b =>
    match a, b with
    | Except.error e, Except.error e' =>
        if h : e = e' then isTrue (by rw [h])
        else isFalse (fun hh => by cases hh; exact h rfl)
    | Except.error _, Except.ok _ => isFalse (fun hh => by cases hh)
    | Except.ok _, Except.error _ => isFalse (fun hh => by cases hh)
    | Except.ok v, Except.ok v' =>
        if h : v = v' then isTrue (by rw [h])
        else isFalse (fun hh => by cases hh; exact h rfl)

/-! ### Association-list primitives

Model of `syncmap.Map` (Load / Store / Swap / Delete / Range) and of the
file table of an in-memory `afero.Fs`. A store overwrites the existing
binding of the key when present and appends otherwise. -/

def assocLoad {α : Type} (l : List (String × α)) (k : String) : Option α :=
  match l with
  | [] => none
  | (k', v) :: rest => if k' = k then some v else assocLoad rest k

def assocStore {α : Type} (l : List (String × α)) (k : String) (v : α) :
    List (String × α) :=
  match l with
  | [] => [(k, v)]
  | (k', v') :: rest =>
      if k' = k then (k, v) :: rest else (k', v') :: assocStore rest k v

def assocDelete {α : Type} (l : List (String × α)) (k : String) :
    List (String × α) :=
  l.filter (fun p => p.1 ≠ k)

/-! ### Exact model of the float32 arithmetic in `convertSingleImage`

`GoFloat` is an unreduced fraction. Go rounds with `math.Round`
(half away from zero), truncates on `int(...)` conversion and takes
`math.Ceil` for the column count; the three are defined below from floor
division on `Int`. -/

structure GoFloat where
  num : Int
  den : Int
  deriving Repr, DecidableEq

def GoFloat.floor (q : GoFloat) : Int :=
  if q.den < 0 then Int.fdiv (-q.num) (-q.den) else Int.fdiv q.num q.den

def GoFloat.ceil (q : GoFloat) : Int := -(GoFloat.floor ⟨-q.num, q.den⟩)

def GoFloat.nonneg (q : GoFloat) : Bool := 0 ≤ q.num * q.den

/-- `int(x)` conversion in Go: truncation toward zero. -/
def GoFloat.trunc (q : GoFloat) : Int :=
  if q.nonneg then q.floor else q.ceil

/-- `math.Round`: round half away from zero. -/
def GoFloat.round (q : GoFloat) : Int :=
  if q.nonneg then GoFloat.floor ⟨2 * q.num + q.den, 2 * q.den⟩
  else GoFloat.ceil ⟨2 * q.num - q.den, 2 * q.den⟩

/-- `x / float32(n)` for an integer `n`. -/
def GoFloat.divInt (q : GoFloat) (n : Int) : GoFloat := ⟨q.num, q.den * n⟩

/-- `float32(n) * q` for an integer `n`. -/
def GoFloat.intMul (n : Int) (q : GoFloat) : GoFloat := ⟨n * q.num, q.den⟩

/-- `float32(n) / q` for an integer `n`. -/
def GoFloat.intDiv (n : Int) (q : GoFloat) : GoFloat := ⟨n * q.den, q.num⟩

/-! ### Images and image bodies

The external decoders (`image.Decode`, `gif.DecodeAll`, `avif.DecodeAll`,
`webp.DecodeAll`) and the sixel encoder of `mattn/go-sixel` are modelled as
deterministic functions on an abstract image value: an `ImageData` carries
the pixel bounds the source reads (`Bounds().Dx/Dy`) and an abstract `tag`
standing for the pixel contents. -/

structure ImageData where
  width : Int
  height : Int
  tag : Nat
  deriving Repr, DecidableEq

/-- Contents of the `io.ReadCloser` returned by a `DisplayUnit` loader, by
decodability: each constructor is the class of byte streams on which exactly
one family of decoders succeeds; `corruptBody` is a stream on which every
decoder fails. -/
inductive ImageBody where
  | avifBody (frames : List ImageData)
  | webpAnimBody (frames : List ImageData)
  | gifBody (cfgWidth cfgHeight : Int) (frames : List ImageData)
  | staticBody (img : ImageData) (format : String)
  | corruptBody
  deriving Repr, DecidableEq

/-- `DecodedImage` of display_manager.go: cached decoded image with its sixel
data. `lastUsed` is a timestamp (integer clock). -/
structure DecodedImage where
  id : Int
  cols : Int
  sixelData : String
  lastUsed : Int
  deriving Repr, DecidableEq

/-- Modelled from the spec: `kittyimg.DisplayUnit` (package kittyimg is not
under src/; fields are those the sixelimg source and its tests read) — a
materialization request: directory/namespace used as cache-key prefix, a
canonical ID, an animation flag, an optional right-padding hint, and a lazy
byte-loader opened only on a cache miss. The loader closure is modelled by
its outcome: an error, or the byte stream with its content type. -/
structure DisplayUnit where
  id : String
  directory : String
  isAnimated : Bool
  rightPadding : Int
  load : Except String (ImageBody × String)

/-- Modelled from the spec: `kittyimg.KittyDisplayUnit` (package kittyimg is
not under src/) — the terminal payload returned by `Convert`: a prepare
transmission command, a placement command and replacement text; the sixel
variant uses only the replacement text. -/
structure KittyDisplayUnit where
  prepareCommand : String := ""
  placeCommand : String := ""
  replacementText : String := ""
  deriving Repr, DecidableEq

/-! ### The filesystem model

A persistent-cache file holds either a well-formed JSON metadata record,
a well-formed zlib stream, or bytes on which JSON decoding and zlib
decompression both fail. `createFails` models an underlying filesystem whose
`Create` calls fail (e.g. disk full); `MkdirAll` on the in-memory fs of the
tests never fails on a well-formed path and is modelled as always
succeeding. -/

inductive FileData where
  | metaJson (cols : Int) (encodedPath : String)
  | zlibData (payload : String)
  | corrupt
  deriving Repr, DecidableEq

structure Fs where
  files : List (String × FileData)
  createFails : Bool
  deriving Repr, DecidableEq

def fsRead (fs : Fs) (path : String) : Option FileData :=
  assocLoad fs.files path

def fsWrite (fs : Fs) (path : String) (d : FileData) : Fs :=
  { fs with files := assocStore fs.files path d }

/-! ### Paths -/

/-- `BaseImageDirectory = filepath.Join(xdg.DataHome, "chatuino")`; the xdg
data home is environment dependent and modelled as a fixed path. -/
def BaseImageDirectory : String := "/data/chatuino"

/-- `filepath.Join` on already-clean non-empty components. -/
def pathJoin (a b : String) : String := a ++ "/" ++ b

/-- Go `filepath.Clean`, which is the identity on canonical unit IDs
(lowercase `platform.emoteid`, no separators and no dot segments); the
claims proved use only that it is a fixed deterministic function of the
ID. -/
def filepathClean (s : String) : String := s

/-- `createGetCacheDirectory`: `MkdirAll` of
`BaseImageDirectory/sixel/<dir>`; directory creation on the in-memory fs is
modelled as always succeeding, so only the resulting path is returned. -/
def createGetCacheDirectory (dir : String) : String :=
  pathJoin (pathJoin BaseImageDirectory "sixel") dir

/-! ### DisplayManager and conversion -/

/-- `DisplayManager` of display_manager.go. The `afero.Fs` handle it holds
is mutable state and lives in `ConvState` below; the cell geometry
(float32 in the source) is carried here. -/
structure DisplayManager where
  cellWidth : GoFloat
  cellHeight : GoFloat

/-- The sixel encoder of `mattn/go-sixel`, modelled as a deterministic
function of the image (with a `bytes.Buffer` sink it does not fail). -/
def sixelEncode (img : ImageData) : String :=
  "\x1bP0;1q" ++ toString img.width ++ ";" ++ toString img.height ++ ";" ++
    toString img.tag ++ "\x1b\\"

/-- `imageToSixel`: encode an image into a sixel escape-sequence string. -/
def imageToSixel (img : ImageData) : Except String String :=
  Except.ok (sixelEncode img)

/-- `addRightPadding`: new image with transparent padding on the right. -/
def addRightPadding (img : ImageData) (padding : Int) : ImageData :=
  { img with width := img.width + padding }

/-- `convertSingleImage`: pad, scale to cell height preserving aspect
ratio, compute the column count, encode to sixel. The `draw.CatmullRom`
resampler only changes pixel contents, so the resized image keeps the
abstract pixel tag. -/
def convertSingleImage (d : DisplayManager) (img0 : ImageData)
    (unit : DisplayUnit) : Except String DecodedImage :=
  let height := img0.height
  let img := if unit.rightPadding > 0 then addRightPadding img0 unit.rightPadding else img0
  let width := img.width
  let ratio := d.cellHeight.divInt height
  let newWidth := (GoFloat.intMul width ratio).round
  let newHeight := d.cellHeight.trunc
  let resized : ImageData := ⟨newWidth, newHeight, img.tag⟩
  let cols := (GoFloat.intDiv newWidth d.cellWidth).ceil
  match imageToSixel resized with
  | Except.error e => Except.error ("failed to encode sixel: " ++ e)
  | Except.ok sixelData => Except.ok ⟨0, cols, sixelData, 0⟩

/-- `convertImageBytes`: dispatch on content type and animation flag; for
animated images only the first frame is used. Each decoder succeeds exactly
on the matching `ImageBody` constructor. -/
def convertImageBytes (d : DisplayManager) (body : ImageBody)
    (unit : DisplayUnit) (contentType : String) : Except String DecodedImage :=
  if contentType = "image/avif" then
    match body with
    | ImageBody.avifBody (f :: _) => convertSingleImage d f unit
    | ImageBody.avifBody [] => Except.error "avif has no frames"
    | _ => Except.error "failed to convert avif: decode error"
  else if unit.isAnimated ∧ contentType = "image/webp" then
    match body with
    | ImageBody.webpAnimBody (f :: _) => convertSingleImage d f unit
    | ImageBody.webpAnimBody [] => Except.error "webp has no frames"
    | _ => Except.error "failed to convert animated webp: decode error"
  else if unit.isAnimated ∧ contentType = "image/gif" then
    match body with
    | ImageBody.gifBody cfgWidth cfgHeight (f :: _) =>
        let w := if cfgWidth = 0 ∨ cfgHeight = 0 then f.width else cfgWidth
        let h := if cfgWidth = 0 ∨ cfgHeight = 0 then f.height else cfgHeight
        convertSingleImage d ⟨w, h, f.tag⟩ unit
    | ImageBody.gifBody _ _ [] => Except.error "gif has no frames"
    | _ => Except.error "failed to convert animated gif: decode error"
  else
    match body with
    | ImageBody.staticBody img _ => convertSingleImage d img unit
    | _ => Except.error "failed to convert : image: unknown format"

/-- `cacheDecodedImage`: write the compressed sixel payload and the JSON
metadata record (column count and payload path) under the cache directory.
With `createFails` the first `Create` call fails before anything is
written; otherwise both writes succeed (buffer compression and JSON
encoding of the record do not fail). -/
def cacheDecodedImage (fs : Fs) (decoded : DecodedImage)
    (unit : DisplayUnit) : Except String Fs :=
  let cacheDir := createGetCacheDirectory unit.directory
  let metaImageFilePath := pathJoin cacheDir (filepathClean unit.id ++ ".sixel.json")
  if fs.createFails then Except.error "create failed"
  else
    let compressedPath := pathJoin cacheDir (filepathClean unit.id ++ ".sixel.zlib")
    Except.ok (fsWrite (fsWrite fs compressedPath (FileData.zlibData decoded.sixelData))
      metaImageFilePath (FileData.metaJson decoded.cols compressedPath))

/-- `openCached`: read the metadata record, then the compressed payload it
points to, and decompress. A missing metadata file is a miss
(`ok none`, no error); every other failure — metadata bytes that do not
unmarshal, a missing payload file, or a payload that is not a zlib
stream — is an error (`error`), never a miss. -/
def openCached (fs : Fs) (unit : DisplayUnit) :
    Except String (Option DecodedImage) :=
  let dir := createGetCacheDirectory unit.directory
  let metaImageFilePath := pathJoin dir (filepathClean unit.id ++ ".sixel.json")
  match fsRead fs metaImageFilePath with
  | none => Except.ok none
  | some (FileData.metaJson cols encodedPath) =>
      match fsRead fs encodedPath with
      | none => Except.error "open encoded path: file does not exist"
      | some (FileData.zlibData payload) =>
          Except.ok (some ⟨0, cols, payload, 0⟩)
      | some _ => Except.error "zlib: invalid header"
  | some _ => Except.error "invalid character in json"

/-! ### Convert -/

/-- Mutable state threaded through `Convert`: the package-global session
cache `globalPlacedImages`, the package-global placement-ID counter, and
the contents of the filesystem the manager was constructed with. -/
structure ConvState where
  session : List (String × DecodedImage)
  fs : Fs
  counter : Int
  deriving Repr, DecidableEq

/-- Result of one `Convert` call: the Go return pair (payload, error),
the state after the call, and how many times the lazy loader closure was
invoked during the call. -/
structure ConvertOut where
  payload : KittyDisplayUnit
  err : Option String
  state : ConvState
  loaderCalls : Nat
  deriving Repr, DecidableEq

/-- The third block of `Convert` (cold path): invoke the loader, convert,
store into the session cache, write back to the persistent cache (a
write-back failure is logged and ignored), return the payload.
`incrementID` is the already-bumped placement counter. -/
def convertCold (d : DisplayManager) (unit : DisplayUnit) (now : Int)
    (incrementID : Int) (st : ConvState) : ConvertOut :=
  match unit.load with
  | Except.error e => ⟨{}, some e, st, 1⟩
  | Except.ok (imageBody, contentType) =>
      match convertImageBytes d imageBody unit contentType with
      | Except.error e => ⟨{}, some e, st, 1⟩
      | Except.ok decoded0 =>
          let decoded := { decoded0 with id := incrementID, lastUsed := now }
          let session := assocStore st.session unit.id decoded
          let fs :=
            match cacheDecodedImage st.fs decoded unit with
            | Except.error _ => st.fs
            | Except.ok fs' => fs'
          ⟨{ replacementText := decoded.sixelData }, none,
            { st with session := session, fs := fs }, 1⟩

/-- `DisplayManager.Convert`: session cache, then persistent cache (an
`openCached` error is logged and treated as a miss), then the cold path.
In this typed model the session cache holds only `DecodedImage` values, so
the type-assertion-failure branch of the source is unreachable and not
modelled. -/
def Convert (d : DisplayManager) (unit : DisplayUnit) (now : Int)
    (st : ConvState) : ConvertOut :=
  match assocLoad st.session unit.id with
  | some i =>
      let i' := { i with lastUsed := now }
      ⟨{ replacementText := i.sixelData }, none,
        { st with session := assocStore st.session unit.id i' }, 0⟩
  | none =>
      let incrementID := st.counter + 1
      let st1 : ConvState := { st with counter := incrementID }
      match openCached st1.fs unit with
      | Except.ok (some cachedDecoded) =>
          let c := { cachedDecoded with id := incrementID, lastUsed := now }
          ⟨{ replacementText := c.sixelData }, none,
            { st1 with session := assocStore st1.session unit.id c }, 0⟩
      | Except.ok none => convertCold d unit now incrementID st1
      | Except.error _ => convertCold d unit now incrementID st1

/-- `CleanupOldImagesCommand`: range over the session cache deleting every
entry whose `time.Since(lastUsed)` exceeds `maxAge`; returns the empty
string (sixel needs no terminal-side cleanup). -/
def CleanupOldImagesCommand (maxAge now : Int)
    (session : List (String × DecodedImage)) :
    String × List (String × DecodedImage) :=
  ("", session.filter (fun p => !(decide (now - p.2.lastUsed > maxAge))))

/-- `CleanupAllImagesCommand`: the empty string, no state change. -/
def CleanupAllImagesCommand : String := ""

/-! ### Package emote (emote.go) -/

/-- `Platform` enum of emote.go. -/
inductive Platform where
  | unknown
  | twitch
  | sevenTV
  | bttv
  | ffz
  deriving Repr, DecidableEq

/-- `Emote` of emote.go. -/
structure Emote where
  id : String
  text : String
  platform : Platform
  url : String
  isAnimated : Bool
  format : String
  ttvEmoteType : String
  deriving Repr, DecidableEq

/-- The zero value of `Emote`, returned by `GetByText` on a miss. -/
def zeroEmote : Emote := ⟨"", "", Platform.unknown, "", false, "", ""⟩

/-- `EmoteSet`: a slice of emotes, in insertion order. -/
abbrev EmoteSet := List Emote

/-- `EmoteSet.GetByText`: linear scan in slice order, first emote whose
`Text` equals the query wins; miss returns the zero `Emote` and false. -/
def GetByText (set : EmoteSet) (text : String) : Emote × Bool :=
  match set with
  | [] => (zeroEmote, false)
  | e :: rest => if e.text = text then (e, true) else GetByText rest text

/-! ### Package twitch/ffz (api.go, http.go) -/

/-- `APIError` of http.go: HTTP status code and status line from the
response, message decoded from the provider error body (only the `message`
field of the struct carries a JSON tag). -/
structure APIError where
  statusCode : Int
  status : String
  message : String
  deriving Repr, DecidableEq

/-- `Emote` of http.go (FFZ wire shape). -/
structure FfzEmote where
  id : Int
  name : String
  height : Int
  width : Int
  modifier : Bool
  urls : List (String × String)
  deriving Repr, DecidableEq

/-- `emoteSet` of http.go. -/
structure FfzEmoteSet where
  id : Int
  emoticons : List FfzEmote
  deriving Repr, DecidableEq

/-- `globalResponse` of http.go. The Go `map[string]emoteSet` is modelled
as an association list; Go map iteration order is unspecified, so theorems
about `GetGlobalEmotes` are stated up to membership. -/
structure GlobalResponse where
  defaultSets : List Int
  sets : List (String × FfzEmoteSet)
  deriving Repr, DecidableEq

/-- An HTTP response as seen by `doRequest` after `io.ReadAll`: status
code, status line, and the response body. The body bytes are modelled by
the outcomes of the two `json.Unmarshal` calls the source can apply to
them: decoding into `APIError` (which extracts the `message` field) and
decoding into the target type `T`. -/
structure HttpResponse (T : Type) where
  statusCode : Int
  status : String
  bodyAsAPIError : Except String String
  bodyAsData : Except String T

/-- Error result of `doRequest`: either the typed provider `APIError` or a
JSON unmarshalling error. -/
inductive DoRequestError where
  | api (e : APIError)
  | jsonErr (msg : String)
  deriving Repr, DecidableEq

/-- `doRequest` (status handling and decoding; request construction and
transport errors return before this point and are not modelled): a status
code outside 200..299 decodes the provider error body into an `APIError`
carrying the HTTP status code and status line and returns it as the error;
a 2xx status decodes the body into `T`. -/
def doRequest {T : Type} (resp : HttpResponse T) : Except DoRequestError T :=
  if resp.statusCode < 200 ∨ 300 ≤ resp.statusCode then
    match resp.bodyAsAPIError with
    | Except.error e => Except.error (DoRequestError.jsonErr e)
    | Except.ok msg =>
        Except.error (DoRequestError.api ⟨resp.statusCode, resp.status, msg⟩)
  else
    match resp.bodyAsData with
    | Except.error e => Except.error (DoRequestError.jsonErr e)
    | Except.ok d => Except.ok d

/-- Accumulate the decimal value of a digit run; `none` on the first
non-digit character. -/
def digitsVal (l : List Char) (acc : Nat) : Option Nat :=
  match l with
  | [] => some acc
  | c :: rest => if c.isDigit then digitsVal rest (acc * 10 + (c.toNat - 48)) else none

/-- `strconv.Atoi`: optional sign, then a non-empty run of decimal digits;
anything else is an error. 64-bit overflow (values of magnitude at least
2^63) is not modelled; FFZ set keys are far below it. -/
def atoi (s : String) : Option Int :=
  match s.data with
  | [] => none
  | '+' :: rest =>
      match rest with
      | [] => none
      | _ => (digitsVal rest 0).map Int.ofNat
  | '-' :: rest =>
      match rest with
      | [] => none
      | _ => (digitsVal rest 0).map (fun n => -(n : Int))
  | l => (digitsVal l 0).map Int.ofNat

/-- `API.GetGlobalEmotes` after a successful `doRequest`: keep the sets
whose key parses as an integer listed in `default_sets` (the source builds
a membership set from the list first; list membership is the same test) and
concatenate their emoticons. -/
def GetGlobalEmotes (resp : GlobalResponse) : List FfzEmote :=
  resp.sets.foldl
    (fun emotes p =>
      match atoi p.1 with
      | none => emotes
      | some id => if id ∈ resp.defaultSets then emotes ++ p.2.emoticons else emotes)
    []

/-! ### Concrete fixtures used to evaluate the model on closed inputs -/

/-- A 2x2 static image (abstract pixel tag 7). -/
def sampleImage : ImageData := ⟨2, 2, 7⟩

/-- A display unit whose loader succeeds with a static webp body. -/
def sampleUnit : DisplayUnit :=
  ⟨"ttv.123", "emote", false, 0,
    Except.ok (ImageBody.staticBody sampleImage "webp", "image/webp")⟩

/-- A display unit whose loader always fails. -/
def failUnit : DisplayUnit :=
  ⟨"ttv.err", "emote", false, 0, Except.error "connection refused"⟩

/-- A display unit whose loader succeeds but whose bytes no decoder
accepts. -/
def corruptUnit : DisplayUnit :=
  ⟨"ttv.bad", "emote", false, 0,
    Except.ok (ImageBody.corruptBody, "image/webp")⟩

/-- A manager with 10x20 pixel cells (the geometry the tests use). -/
def sampleDM : DisplayManager := ⟨⟨10, 1⟩, ⟨20, 1⟩⟩

/-- Fresh state: empty session cache, empty healthy filesystem. -/
def emptyState : ConvState := ⟨[], ⟨[], false⟩, 0⟩

/-- Fresh state over a filesystem whose writes fail. -/
def failFsState : ConvState := ⟨[], ⟨[], true⟩, 0⟩

/-- State whose persistent cache holds corrupt metadata for `sampleUnit`. -/
def corruptFsState : ConvState :=
  ⟨[], ⟨[(pathJoin (createGetCacheDirectory "emote") ("ttv.123" ++ ".sixel.json"),
         FileData.corrupt)], false⟩, 0⟩

/-- The decoded image `convertImageBytes` produces for `sampleUnit` under
`sampleDM` geometry: 2x2 scaled to 20 pixels high and wide, 2 columns. -/
def sampleDecoded : DecodedImage := ⟨0, 2, sixelEncode ⟨20, 20, 7⟩, 0⟩

/-- A non-2xx FFZ response whose error body decodes. -/
def resp404 : HttpResponse Int :=
  ⟨404, "404 Not Found", Except.ok "no such room", Except.error "invalid"⟩

/-- A 2xx FFZ response. -/
def resp200 : HttpResponse Int :=
  ⟨200, "200 OK", Except.error "json: cannot unmarshal", Except.ok 7⟩

/-! ### Association-list and string lemmas -/

theorem assocLoad_store_self {α : Type} (l : List (String × α)) (k : String) (v : α) :
    assocLoad (assocStore l k v) k = some v := by
  induction l with
  | nil => simp [assocLoad, assocStore]
  | cons hd tl ih =>
      by_cases h : hd.1 = k
      · simp [assocLoad, assocStore, h]
      · simp [assocLoad, assocStore, h, ih]

theorem assocLoad_store_ne {α : Type} (l : List (String × α)) (k k' : String) (v : α)
    (h : k ≠ k') : assocLoad (assocStore l k v) k' = assocLoad l k' := by
  induction l with
  | nil => simp [assocLoad, assocStore, h]
  | cons hd tl ih =>
      by_cases hh : hd.1 = k
      · simp [assocLoad, assocStore, hh, h]
      · simp [assocLoad, assocStore, hh, ih]

theorem assocLoad_delete_self {α : Type} (l : List (String × α)) (k : String) :
    assocLoad (assocDelete l k) k = none := by
  induction l with
  | nil => simp [assocLoad, assocDelete]
  | cons hd tl ih =>
      by_cases h : hd.1 = k
      · simpa [assocDelete, h] using ih
      · simpa [assocDelete, assocLoad, h] using ih

theorem string_append_left_cancel {a b c : String} (h : a ++ b = a ++ c) : b = c := by
  have hd : (a ++ b).data = (a ++ c).data := by rw [h]
  simp only [String.data_append] at hd
  have := List.append_cancel_left hd
  cases b; cases c; simp_all

theorem metaPath_ne_zlibPath (dir s : String) :
    pathJoin dir (s ++ ".sixel.json") ≠ pathJoin dir (s ++ ".sixel.zlib") := by
  intro h
  unfold pathJoin at h
  have h1 := string_append_left_cancel h
  have h2 := string_append_left_cancel h1
  exact absurd h2 (by decide)

/-! ### Persistent-cache round-trip and cold-path lemmas -/

theorem cacheDecodedImage_ok (fs : Fs) (decoded : DecodedImage) (unit : DisplayUnit)
    (hw : fs.createFails = false) :
    cacheDecodedImage fs decoded unit =
      Except.ok (fsWrite
        (fsWrite fs
          (pathJoin (createGetCacheDirectory unit.directory)
            (filepathClean unit.id ++ ".sixel.zlib"))
          (FileData.zlibData decoded.sixelData))
        (pathJoin (createGetCacheDirectory unit.directory)
          (filepathClean unit.id ++ ".sixel.json"))
        (FileData.metaJson decoded.cols
          (pathJoin (createGetCacheDirectory unit.directory)
            (filepathClean unit.id ++ ".sixel.zlib")))) := by
  simp [cacheDecodedImage, hw]

theorem fsRead_write_self (fs : Fs) (p : String) (d : FileData) :
    fsRead (fsWrite fs p d) p = some d :=
  assocLoad_store_self _ _ _

theorem fsRead_write_ne (fs : Fs) (p p' : String) (d : FileData) (h : p ≠ p') :
    fsRead (fsWrite fs p d) p' = fsRead fs p' :=
  assocLoad_store_ne _ _ _ _ h

/-- Reading back an entry just written by `cacheDecodedImage` recovers
exactly the written column count and (decompressed) sixel payload. -/
theorem openCached_after_cache (fs : Fs) (decoded : DecodedImage)
    (unit : DisplayUnit) (fs' : Fs)
    (h : cacheDecodedImage fs decoded unit = Except.ok fs') :
    openCached fs' unit = Except.ok (some ⟨0, decoded.cols, decoded.sixelData, 0⟩) := by
  by_cases hw : fs.createFails
  · simp [cacheDecodedImage, hw] at h
  · rw [cacheDecodedImage_ok fs decoded unit (by simpa using hw)] at h
    cases h
    unfold openCached
    simp only [fsRead_write_self,
      fsRead_write_ne _ _ _ _
        (metaPath_ne_zlibPath (createGetCacheDirectory unit.directory)
          (filepathClean unit.id))]

/-! ### Branch equations for `convertCold` and `Convert` -/

theorem convertCold_load_error (d : DisplayManager) (unit : DisplayUnit)
    (now incrementID : Int) (st : ConvState) (e : String)
    (h : unit.load = Except.error e) :
    convertCold d unit now incrementID st = ⟨{}, some e, st, 1⟩ := by
  unfold convertCold
  rw [h]

theorem convertCold_decode_error (d : DisplayManager) (unit : DisplayUnit)
    (now incrementID : Int) (st : ConvState) (body : ImageBody) (ct e : String)
    (h1 : unit.load = Except.ok (body, ct))
    (h2 : convertImageBytes d body unit ct = Except.error e) :
    convertCold d unit now incrementID st = ⟨{}, some e, st, 1⟩ := by
  unfold convertCold
  rw [h1]
  simp only
  rw [h2]

theorem convertCold_ok (d : DisplayManager) (unit : DisplayUnit)
    (now incrementID : Int) (st : ConvState) (body : ImageBody) (ct : String)
    (dec : DecodedImage)
    (h1 : unit.load = Except.ok (body, ct))
    (h2 : convertImageBytes d body unit ct = Except.ok dec) :
    convertCold d unit now incrementID st =
      ⟨{ replacementText := dec.sixelData }, none,
        { st with
          session := assocStore st.session unit.id
            { dec with id := incrementID, lastUsed := now },
          fs :=
            match cacheDecodedImage st.fs
                { dec with id := incrementID, lastUsed := now } unit with
            | Except.error _ => st.fs
            | Except.ok fs' => fs' }, 1⟩ := by
  unfold convertCold
  rw [h1]
  simp only
  rw [h2]

/-- The cold path invokes the loader closure exactly once. -/
theorem convertCold_loaderCalls (d : DisplayManager) (unit : DisplayUnit)
    (now incrementID : Int) (st : ConvState) :
    (convertCold d unit now incrementID st).loaderCalls = 1 := by
  rcases hld : unit.load with e | ⟨body, ct⟩
  · rw [convertCold_load_error d unit now incrementID st e hld]
  · rcases hcv : convertImageBytes d body unit ct with e | dec
    · rw [convertCold_decode_error d unit now incrementID st body ct e hld hcv]
    · rw [convertCold_ok d unit now incrementID st body ct dec hld hcv]

theorem Convert_session_hit (d : DisplayManager) (unit : DisplayUnit)
    (now : Int) (st : ConvState) (i : DecodedImage)
    (h : assocLoad st.session unit.id = some i) :
    Convert d unit now st =
      ⟨{ replacementText := i.sixelData }, none,
        { st with session := assocStore st.session unit.id { i with lastUsed := now } },
        0⟩ := by
  unfold Convert
  rw [h]

theorem Convert_disk_hit (d : DisplayManager) (unit : DisplayUnit)
    (now : Int) (st : ConvState) (c : DecodedImage)
    (h1 : assocLoad st.session unit.id = none)
    (h2 : openCached st.fs unit = Except.ok (some c)) :
    Convert d unit now st =
      ⟨{ replacementText := c.sixelData }, none,
        { st with
          session := assocStore st.session unit.id
            { c with id := st.counter + 1, lastUsed := now },
          counter := st.counter + 1 }, 0⟩ := by
  unfold Convert
  rw [h1]
  simp only
  rw [h2]

theorem Convert_disk_miss (d : DisplayManager) (unit : DisplayUnit)
    (now : Int) (st : ConvState)
    (h1 : assocLoad st.session unit.id = none)
    (h2 : openCached st.fs unit = Except.ok none) :
    Convert d unit now st =
      convertCold d unit now (st.counter + 1) { st with counter := st.counter + 1 } := by
  unfold Convert
  rw [h1]
  simp only
  rw [h2]

theorem Convert_disk_error (d : DisplayManager) (unit : DisplayUnit)
    (now : Int) (st : ConvState) (e : String)
    (h1 : assocLoad st.session unit.id = none)
    (h2 : openCached st.fs unit = Except.error e) :
    Convert d unit now st =
      convertCold d unit now (st.counter + 1) { st with counter := st.counter + 1 } := by
  unfold Convert
  rw [h1]
  simp only
  rw [h2]

/-- Any single `Convert` call invokes the loader closure at most once. -/
theorem Convert_loaderCalls_le_one (d : DisplayManager) (unit : DisplayUnit)
    (now : Int) (st : ConvState) :
    (Convert d unit now st).loaderCalls ≤ 1 := by
  rcases hses : assocLoad st.session unit.id with _ | i
  · rcases hoc : openCached st.fs unit with e | cached
    · rw [Convert_disk_error d unit now st e hses hoc]
      exact le_of_eq (convertCold_loaderCalls _ _ _ _ _)
    · rcases cached with _ | c
      · rw [Convert_disk_miss d unit now st hses hoc]
        exact le_of_eq (convertCold_loaderCalls _ _ _ _ _)
      · rw [Convert_disk_hit d unit now st c hses hoc]
        exact Nat.zero_le 1
  · rw [Convert_session_hit d unit now st i hses]
    exact Nat.zero_le 1

/-- After a successful `Convert`, the session cache holds an entry for the
unit whose sixel data is exactly the returned replacement text. -/
theorem Convert_ok_session (d : DisplayManager) (unit : DisplayUnit)
    (now : Int) (st : ConvState)
    (h : (Convert d unit now st).err = none) :
    ∃ v, assocLoad (Convert d unit now st).state.session unit.id = some v ∧
      v.sixelData = (Convert d unit now st).payload.replacementText := by
  rcases hses : assocLoad st.session unit.id with _ | i
  · rcases hoc : openCached st.fs unit with e | cached
    · rw [Convert_disk_error d unit now st e hses hoc] at h ⊢
      rcases hld : unit.load with e' | ⟨body, ct⟩
      · rw [convertCold_load_error _ _ _ _ _ _ hld] at h
        exact absurd h (by simp)
      · rcases hcv : convertImageBytes d body unit ct with e' | dec
        · rw [convertCold_decode_error _ _ _ _ _ _ _ _ hld hcv] at h
          exact absurd h (by simp)
        · rw [convertCold_ok _ _ _ _ _ _ _ _ hld hcv]
          exact ⟨_, assocLoad_store_self _ _ _, rfl⟩
    · rcases cached with _ | c
      · rw [Convert_disk_miss d unit now st hses hoc] at h ⊢
        rcases hld : unit.load with e' | ⟨body, ct⟩
        · rw [convertCold_load_error _ _ _ _ _ _ hld] at h
          exact absurd h (by simp)
        · rcases hcv : convertImageBytes d body unit ct with e' | dec
          · rw [convertCold_decode_error _ _ _ _ _ _ _ _ hld hcv] at h
            exact absurd h (by simp)
          · rw [convertCold_ok _ _ _ _ _ _ _ _ hld hcv]
            exact ⟨_, assocLoad_store_self _ _ _, rfl⟩
      · rw [Convert_disk_hit d unit now st c hses hoc]
        exact ⟨_, assocLoad_store_self _ _ _, rfl⟩
  · rw [Convert_session_hit d unit now st i hses]
    exact ⟨_, assocLoad_store_self _ _ _, rfl⟩

/-! ### Claims -/

/-- C1: for a `DisplayUnit` whose first `Convert` succeeds, a second
`Convert` with the same ID succeeds, is answered from the in-memory session
cache (zero loader invocations), returns a payload byte-identical to the
first, and across both calls the lazy loader is invoked at most once. -/
theorem convert_display_idempotent (d : DisplayManager) (unit : DisplayUnit)
    (now1 now2 : Int) (st : ConvState)
    (h : (Convert d unit now1 st).err = none) :
    (Convert d unit now2 (Convert d unit now1 st).state).err = none ∧
    (Convert d unit now2 (Convert d unit now1 st).state).payload.replacementText =
      (Convert d unit now1 st).payload.replacementText ∧
    (Convert d unit now2 (Convert d unit now1 st).state).loaderCalls = 0 ∧
    (Convert d unit now1 st).loaderCalls +
      (Convert d unit now2 (Convert d unit now1 st).state).loaderCalls ≤ 1 := by
  obtain ⟨v, hv, hsx⟩ := Convert_ok_session d unit now1 st h
  rw [Convert_session_hit d unit now2 _ v hv]
  refine ⟨rfl, hsx, rfl, ?_⟩
  simpa using Convert_loaderCalls_le_one d unit now1 st

/-- Witness for C1 at a concrete unit, manager and fresh state. -/
theorem convert_display_idempotent_witness :
    (Convert sampleDM sampleUnit 0 emptyState).err = none ∧
    (Convert sampleDM sampleUnit 1 (Convert sampleDM sampleUnit 0 emptyState).state).payload.replacementText =
      (Convert sampleDM sampleUnit 0 emptyState).payload.replacementText ∧
    (Convert sampleDM sampleUnit 1 (Convert sampleDM sampleUnit 0 emptyState).state).loaderCalls = 0 :=
  ⟨by decide,
    (convert_display_idempotent sampleDM sampleUnit 0 1 emptyState (by decide)).2.1,
    (convert_display_idempotent sampleDM sampleUnit 0 1 emptyState (by decide)).2.2.1⟩

/-- C7: every successful `Convert` outcome is fully self-contained: the
prepare (and placement) command fields are empty and the entire sixel
escape sequence stored in the session cache for the unit is the
replacement text. -/
theorem convert_payload_self_contained (d : DisplayManager) (unit : DisplayUnit)
    (now : Int) (st : ConvState)
    (h : (Convert d unit now st).err = none) :
    (Convert d unit now st).payload.prepareCommand = "" ∧
    (Convert d unit now st).payload.placeCommand = "" ∧
    ∃ v, assocLoad (Convert d unit now st).state.session unit.id = some v ∧
      (Convert d unit now st).payload.replacementText = v.sixelData := by
  obtain ⟨v, hv, hsx⟩ := Convert_ok_session d unit now st h
  refine ⟨?_, ?_, v, hv, hsx.symm⟩ <;>
  · rcases hses : assocLoad st.session unit.id with _ | i
    · rcases hoc : openCached st.fs unit with e | cached
      · rw [Convert_disk_error d unit now st e hses hoc]
        rcases hld : unit.load with e' | ⟨body, ct⟩
        · rw [convertCold_load_error _ _ _ _ _ _ hld]
        · rcases hcv : convertImageBytes d body unit ct with e' | dec
          · rw [convertCold_decode_error _ _ _ _ _ _ _ _ hld hcv]
          · rw [convertCold_ok _ _ _ _ _ _ _ _ hld hcv]
      · rcases cached with _ | c
        · rw [Convert_disk_miss d unit now st hses hoc]
          rcases hld : unit.load with e' | ⟨body, ct⟩
          · rw [convertCold_load_error _ _ _ _ _ _ hld]
          · rcases hcv : convertImageBytes d body unit ct with e' | dec
            · rw [convertCold_decode_error _ _ _ _ _ _ _ _ hld hcv]
            · rw [convertCold_ok _ _ _ _ _ _ _ _ hld hcv]
        · rw [Convert_disk_hit d unit now st c hses hoc]
    · rw [Convert_session_hit d unit now st i hses]

/-- Witness for C7 at a concrete unit, manager and fresh state. -/
theorem convert_payload_self_contained_witness :
    (Convert sampleDM sampleUnit 0 emptyState).err = none ∧
    (Convert sampleDM sampleUnit 0 emptyState).payload.prepareCommand = "" ∧
    (Convert sampleDM sampleUnit 0 emptyState).payload.placeCommand = "" :=
  ⟨by decide,
    (convert_payload_self_contained sampleDM sampleUnit 0 emptyState (by decide)).1,
    (convert_payload_self_contained sampleDM sampleUnit 0 emptyState (by decide)).2.1⟩

/-- C8: a `Convert` call that returns an error (loader failure or
decode/encode failure on the cold path) returns the zero-valued payload
and leaves the session cache and the filesystem untouched. -/
theorem convert_error_leaves_caches (d : DisplayManager) (unit : DisplayUnit)
    (now : Int) (st : ConvState) (e : String)
    (h : (Convert d unit now st).err = some e) :
    (Convert d unit now st).payload = {} ∧
    (Convert d unit now st).state.session = st.session ∧
    (Convert d unit now st).state.fs = st.fs := by
  rcases hses : assocLoad st.session unit.id with _ | i
  · rcases hoc : openCached st.fs unit with e' | cached
    · rw [Convert_disk_error d unit now st e' hses hoc] at h ⊢
      rcases hld : unit.load with e'' | ⟨body, ct⟩
      · rw [convertCold_load_error _ _ _ _ _ _ hld]
        exact ⟨rfl, rfl, rfl⟩
      · rcases hcv : convertImageBytes d body unit ct with e'' | dec
        · rw [convertCold_decode_error _ _ _ _ _ _ _ _ hld hcv]
          exact ⟨rfl, rfl, rfl⟩
        · rw [convertCold_ok _ _ _ _ _ _ _ _ hld hcv] at h
          exact absurd h (by simp)
    · rcases cached with _ | c
      · rw [Convert_disk_miss d unit now st hses hoc] at h ⊢
        rcases hld : unit.load with e'' | ⟨body, ct⟩
        · rw [convertCold_load_error _ _ _ _ _ _ hld]
          exact ⟨rfl, rfl, rfl⟩
        · rcases hcv : convertImageBytes d body unit ct with e'' | dec
          · rw [convertCold_decode_error _ _ _ _ _ _ _ _ hld hcv]
            exact ⟨rfl, rfl, rfl⟩
          · rw [convertCold_ok _ _ _ _ _ _ _ _ hld hcv] at h
            exact absurd h (by simp)
      · rw [Convert_disk_hit d unit now st c hses hoc] at h
        exact absurd h (by simp)
  · rw [Convert_session_hit d unit now st i hses] at h
    exact absurd h (by simp)

/-- Witness for C8 at a unit whose loader fails. -/
theorem convert_error_leaves_caches_witness :
    (Convert sampleDM failUnit 0 emptyState).err = some "connection refused" ∧
    (Convert sampleDM failUnit 0 emptyState).payload = {} ∧
    (Convert sampleDM failUnit 0 emptyState).state.session = emptyState.session ∧
    (Convert sampleDM failUnit 0 emptyState).state.fs = emptyState.fs :=
  ⟨by decide,
    (convert_error_leaves_caches sampleDM failUnit 0 emptyState "connection refused"
      (by decide)).1,
    (convert_error_leaves_caches sampleDM failUnit 0 emptyState "connection refused"
      (by decide)).2.1,
    (convert_error_leaves_caches sampleDM failUnit 0 emptyState "connection refused"
      (by decide)).2.2⟩

/-- C9: a corrupt or unreadable persistent-cache entry never fails
`Convert` by itself: when the session cache misses and `openCached` errors,
`Convert` behaves exactly as the cold path (download, convert, re-store)
and invokes the loader. -/
theorem convert_corrupt_cache_recovers (d : DisplayManager) (unit : DisplayUnit)
    (now : Int) (st : ConvState) (e : String)
    (h1 : assocLoad st.session unit.id = none)
    (h2 : openCached st.fs unit = Except.error e) :
    Convert d unit now st =
      convertCold d unit now (st.counter + 1) { st with counter := st.counter + 1 } ∧
    (Convert d unit now st).loaderCalls = 1 := by
  refine ⟨Convert_disk_error d unit now st e h1 h2, ?_⟩
  rw [Convert_disk_error d unit now st e h1 h2]
  exact convertCold_loaderCalls _ _ _ _ _

/-- Witness for C9 at a state whose metadata file is corrupt. -/
theorem convert_corrupt_cache_recovers_witness :
    openCached corruptFsState.fs sampleUnit = Except.error "invalid character in json" ∧
    (Convert sampleDM sampleUnit 0 corruptFsState).loaderCalls = 1 ∧
    (Convert sampleDM sampleUnit 0 corruptFsState).err = none :=
  ⟨by decide,
    (convert_corrupt_cache_recovers sampleDM sampleUnit 0 corruptFsState
      "invalid character in json" (by decide) (by decide)).2,
    by decide⟩

/-- C2: converting once on the cold path (session and persistent caches
cold, healthy filesystem), deleting the session entry, then converting
again serves the result from the persistent cache: no loader invocation,
no error, byte-identical payload, and session entries of the two calls
agree on column count and sixel data (the `cacheDecodedImage` /
`openCached` round-trip through zlib is exact). -/
theorem convert_cache_round_trip (d : DisplayManager) (unit : DisplayUnit)
    (now1 now2 : Int) (st : ConvState)
    (h1 : assocLoad st.session unit.id = none)
    (h2 : openCached st.fs unit = Except.ok none)
    (h3 : st.fs.createFails = false)
    (h4 : (Convert d unit now1 st).err = none) :
    (Convert d unit now2
      { (Convert d unit now1 st).state with
        session := assocDelete (Convert d unit now1 st).state.session unit.id }).err
        = none ∧
    (Convert d unit now2
      { (Convert d unit now1 st).state with
        session := assocDelete (Convert d unit now1 st).state.session unit.id }).loaderCalls
        = 0 ∧
    (Convert d unit now2
      { (Convert d unit now1 st).state with
        session := assocDelete (Convert d unit now1 st).state.session unit.id }).payload.replacementText
        = (Convert d unit now1 st).payload.replacementText ∧
    ∃ v1 v2,
      assocLoad (Convert d unit now1 st).state.session unit.id = some v1 ∧
      assocLoad (Convert d unit now2
        { (Convert d unit now1 st).state with
          session := assocDelete (Convert d unit now1 st).state.session unit.id }).state.session
          unit.id = some v2 ∧
      v2.cols = v1.cols ∧ v2.sixelData = v1.sixelData := by
  rcases hld : unit.load with e | ⟨body, ct⟩
  · rw [Convert_disk_miss d unit now1 st h1 h2,
      convertCold_load_error _ _ _ _ _ _ hld] at h4
    exact absurd h4 (by simp)
  · rcases hcv : convertImageBytes d body unit ct with e | dec
    · rw [Convert_disk_miss d unit now1 st h1 h2,
        convertCold_decode_error _ _ _ _ _ _ _ _ hld hcv] at h4
      exact absurd h4 (by simp)
    · have hcache := cacheDecodedImage_ok st.fs
        { dec with id := st.counter + 1, lastUsed := now1 } unit h3
      have e1 : Convert d unit now1 st =
          ⟨{ replacementText := dec.sixelData }, none,
            ⟨assocStore st.session unit.id { dec with id := st.counter + 1, lastUsed := now1 },
              (fsWrite
                (fsWrite st.fs
                  (pathJoin (createGetCacheDirectory unit.directory)
                    (filepathClean unit.id ++ ".sixel.zlib"))
                  (FileData.zlibData
                    (DecodedImage.sixelData { dec with id := st.counter + 1, lastUsed := now1 })))
                (pathJoin (createGetCacheDirectory unit.directory)
                  (filepathClean unit.id ++ ".sixel.json"))
                (FileData.metaJson
                  (DecodedImage.cols { dec with id := st.counter + 1, lastUsed := now1 })
                  (pathJoin (createGetCacheDirectory unit.directory)
                    (filepathClean unit.id ++ ".sixel.zlib")))),
              st.counter + 1⟩, 1⟩ := by
        rw [Convert_disk_miss d unit now1 st h1 h2,
          convertCold_ok _ _ _ _ _ _ _ _ hld hcv, hcache]
      have h1' : assocLoad
          (assocDelete
            (assocStore st.session unit.id { dec with id := st.counter + 1, lastUsed := now1 })
            unit.id) unit.id = none :=
        assocLoad_delete_self _ _
      have h2' := openCached_after_cache st.fs
        { dec with id := st.counter + 1, lastUsed := now1 } unit _ hcache
      rw [e1]
      rw [Convert_disk_hit d unit now2 _ _ h1' h2']
      refine ⟨rfl, rfl, rfl, { dec with id := st.counter + 1, lastUsed := now1 }, _,
        assocLoad_store_self _ _ _, assocLoad_store_self _ _ _, rfl, rfl⟩

/-- Witness for C2 at a concrete unit, manager and fresh state. -/
theorem convert_cache_round_trip_witness :
    (Convert sampleDM sampleUnit 1
      { (Convert sampleDM sampleUnit 0 emptyState).state with
        session := assocDelete (Convert sampleDM sampleUnit 0 emptyState).state.session
          sampleUnit.id }).loaderCalls = 0 ∧
    (Convert sampleDM sampleUnit 1
      { (Convert sampleDM sampleUnit 0 emptyState).state with
        session := assocDelete (Convert sampleDM sampleUnit 0 emptyState).state.session
          sampleUnit.id }).payload.replacementText
      = (Convert sampleDM sampleUnit 0 emptyState).payload.replacementText :=
  ⟨(convert_cache_round_trip sampleDM sampleUnit 0 1 emptyState
      (by decide) (by decide) (by decide) (by decide)).2.1,
    (convert_cache_round_trip sampleDM sampleUnit 0 1 emptyState
      (by decide) (by decide) (by decide) (by decide)).2.2.1⟩

/-- C3: on the cold path, a decode or encode failure is returned to the
caller as the error of `Convert`; a failure while writing the freshly
converted image back to the persistent cache is not an error: the session
entry is still stored, the payload is still returned with no error, and
the filesystem is left as it was. -/
theorem convert_cold_error_policy :
    (∀ (d : DisplayManager) (unit : DisplayUnit) (now : Int) (st : ConvState)
        (body : ImageBody) (ct e : String),
      assocLoad st.session unit.id = none →
      openCached st.fs unit = Except.ok none →
      unit.load = Except.ok (body, ct) →
      convertImageBytes d body unit ct = Except.error e →
      (Convert d unit now st).err = some e) ∧
    (∀ (d : DisplayManager) (unit : DisplayUnit) (now : Int) (st : ConvState)
        (body : ImageBody) (ct : String) (dec : DecodedImage) (e : String),
      assocLoad st.session unit.id = none →
      openCached st.fs unit = Except.ok none →
      unit.load = Except.ok (body, ct) →
      convertImageBytes d body unit ct = Except.ok dec →
      cacheDecodedImage st.fs { dec with id := st.counter + 1, lastUsed := now } unit =
        Except.error e →
      (Convert d unit now st).err = none ∧
      (Convert d unit now st).payload.replacementText = dec.sixelData ∧
      assocLoad (Convert d unit now st).state.session unit.id =
        some { dec with id := st.counter + 1, lastUsed := now } ∧
      (Convert d unit now st).state.fs = st.fs) := by
  constructor
  · intro d unit now st body ct e hs ho hld hcv
    rw [Convert_disk_miss d unit now st hs ho,
      convertCold_decode_error _ _ _ _ _ _ _ _ hld hcv]
  · intro d unit now st body ct dec e hs ho hld hcv hcache
    rw [Convert_disk_miss d unit now st hs ho,
      convertCold_ok _ _ _ _ _ _ _ _ hld hcv, hcache]
    exact ⟨rfl, rfl, assocLoad_store_self _ _ _, rfl⟩

/-- Witness for C3: a decode failure surfaces as the returned error; a
write-back failure on a full filesystem is absorbed. -/
theorem convert_cold_error_policy_witness :
    (Convert sampleDM corruptUnit 0 emptyState).err =
      some "failed to convert : image: unknown format" ∧
    ((Convert sampleDM sampleUnit 0 failFsState).err = none ∧
      (Convert sampleDM sampleUnit 0 failFsState).state.fs = failFsState.fs) :=
  ⟨convert_cold_error_policy.1 sampleDM corruptUnit 0 emptyState ImageBody.corruptBody
      "image/webp" "failed to convert : image: unknown format"
      (by decide) (by decide) (by decide) (by decide),
    ⟨(convert_cold_error_policy.2 sampleDM sampleUnit 0 failFsState
        (ImageBody.staticBody sampleImage "webp") "image/webp" sampleDecoded "create failed"
        (by decide) (by decide) (by decide) (by decide) (by decide)).1,
      (convert_cold_error_policy.2 sampleDM sampleUnit 0 failFsState
        (ImageBody.staticBody sampleImage "webp") "image/webp" sampleDecoded "create failed"
        (by decide) (by decide) (by decide) (by decide) (by decide)).2.2.2⟩⟩

/-- C4: `GetByText` scans the set in insertion order and returns the first
element whose `Text` equals the query together with `true` (earlier
insertion wins on duplicates); with no match it returns the zero `Emote`
and `false`. -/
theorem getByText_first_match (set : EmoteSet) (text : String) :
    (∃ i : Fin set.length, (set.get i).text = text ∧
        GetByText set text = (set.get i, true) ∧
        ∀ j : Fin set.length, (j : Nat) < (i : Nat) → (set.get j).text ≠ text) ∨
    ((∀ e ∈ set, e.text ≠ text) ∧ GetByText set text = (zeroEmote, false)) := by
  induction set with
  | nil => exact Or.inr ⟨by simp, rfl⟩
  | cons e rest ih =>
      by_cases he : e.text = text
      · refine Or.inl ⟨⟨0, by simp⟩, he, by simp [GetByText, he], ?_⟩
        intro j hj
        exact absurd hj (by simp)
      · rcases ih with ⟨i, hi1, hi2, hi3⟩ | ⟨hall, heq⟩
        · refine Or.inl ⟨⟨i + 1, by simp [Nat.succ_lt_succ i.isLt]⟩, hi1, ?_, ?_⟩
          · simpa [GetByText, he] using hi2
          · intro j hj
            rcases j with ⟨jv, hjlt⟩
            cases jv with
            | zero => simpa using he
            | succ j' =>
                have hj' : j' < (i : Nat) := Nat.lt_of_succ_lt_succ hj
                have hlen : j' < rest.length := Nat.lt_of_succ_lt_succ hjlt
                simpa using hi3 ⟨j', hlen⟩ hj'
        · refine Or.inr ⟨?_, by simp [GetByText, he, heq]⟩
          intro e' he'
          rcases List.mem_cons.mp he' with rfl | hmem
          · exact he
          · exact hall e' hmem

/-- C5: `doRequest` turns a non-2xx response whose error body decodes into
a typed `APIError` carrying the HTTP status code, the status line and the
decoded message; a 2xx response never produces an `APIError`. -/
theorem doRequest_error_policy :
    (∀ (T : Type) (resp : HttpResponse T) (msg : String),
      (resp.statusCode < 200 ∨ 300 ≤ resp.statusCode) →
      resp.bodyAsAPIError = Except.ok msg →
      doRequest resp =
        Except.error (DoRequestError.api ⟨resp.statusCode, resp.status, msg⟩)) ∧
    (∀ (T : Type) (resp : HttpResponse T),
      200 ≤ resp.statusCode → resp.statusCode < 300 →
      ∀ e : APIError, doRequest resp ≠ Except.error (DoRequestError.api e)) := by
  constructor
  · intro T resp msg hcode hbody
    unfold doRequest
    rw [if_pos hcode, hbody]
  · intro T resp hlo hhi e
    unfold doRequest
    rw [if_neg (by omega)]
    rcases resp.bodyAsData with e' | v <;> simp

/-- Witness for C5: a 404 with a decodable error body, and a 200. -/
theorem doRequest_error_policy_witness :
    doRequest resp404 =
      Except.error (DoRequestError.api ⟨404, "404 Not Found", "no such room"⟩) ∧
    doRequest resp200 ≠
      Except.error (DoRequestError.api ⟨404, "404 Not Found", "no such room"⟩) :=
  ⟨doRequest_error_policy.1 Int resp404 "no such room" (by decide) (by decide),
    doRequest_error_policy.2 Int resp200 (by decide) (by decide) _⟩

/-- C6: after `CleanupOldImagesCommand maxAge`, an entry remains in the
session cache exactly when its last-used timestamp is within `maxAge` of
now. -/
theorem cleanupOldImages_spec (maxAge now : Int)
    (session : List (String × DecodedImage)) (k : String) (v : DecodedImage) :
    (k, v) ∈ (CleanupOldImagesCommand maxAge now session).2 ↔
      (k, v) ∈ session ∧ now - v.lastUsed ≤ maxAge := by
  simp [CleanupOldImagesCommand, List.mem_filter, not_lt]

theorem ffz_foldl_eq (ds : List Int) (sets : List (String × FfzEmoteSet))
    (acc : List FfzEmote) :
    sets.foldl
      (fun emotes p =>
        match atoi p.1 with
        | none => emotes
        | some id => if id ∈ ds then emotes ++ p.2.emoticons else emotes) acc =
    acc ++ (sets.filter (fun p =>
      match atoi p.1 with
      | none => false
      | some id => decide (id ∈ ds))).flatMap (fun p => p.2.emoticons) := by
  induction sets generalizing acc with
  | nil => simp
  | cons hd tl ih =>
      cases h : atoi hd.1 with
      | none => simp [List.foldl_cons, h, List.filter_cons, ih]
      | some id =>
          by_cases hmem : id ∈ ds
          · simp [List.foldl_cons, h, hmem, List.filter_cons, ih, List.append_assoc]
          · simp [List.foldl_cons, h, hmem, List.filter_cons, ih]

theorem ffz_pred_iff (ds : List Int) (p : String × FfzEmoteSet) :
    ((match atoi p.1 with
      | none => false
      | some id => decide (id ∈ ds)) = true) ↔
      ∃ id, atoi p.1 = some id ∧ id ∈ ds := by
  cases h : atoi p.1 <;> simp [h]

/-- C10: `GetGlobalEmotes` returns exactly the emotes of the response sets
whose key parses as an integer listed in `default_sets`; non-integer keys
and unlisted sets contribute nothing. -/
theorem getGlobalEmotes_spec (resp : GlobalResponse) :
    GetGlobalEmotes resp =
      (resp.sets.filter (fun p =>
        match atoi p.1 with
        | none => false
        | some id => decide (id ∈ resp.defaultSets))).flatMap (fun p => p.2.emoticons) ∧
    ∀ e : FfzEmote,
      e ∈ GetGlobalEmotes resp ↔
        ∃ p, p ∈ resp.sets ∧ (∃ id, atoi p.1 = some id ∧ id ∈ resp.defaultSets) ∧
          e ∈ p.2.emoticons := by
  have h := ffz_foldl_eq resp.defaultSets resp.sets []
  have hmain : GetGlobalEmotes resp =
      (resp.sets.filter (fun p =>
        match atoi p.1 with
        | none => false
        | some id => decide (id ∈ resp.defaultSets))).flatMap (fun p => p.2.emoticons) := by
    simpa [GetGlobalEmotes] using h
  refine ⟨hmain, ?_⟩
  intro e
  rw [hmain]
  simp only [List.mem_flatMap, List.mem_filter]
  constructor
  · rintro ⟨p, ⟨hp, hpred⟩, hme⟩
    exact ⟨p, hp, (ffz_pred_iff resp.defaultSets p).mp hpred, hme⟩
  · rintro ⟨p, hp, hex, hme⟩
    exact ⟨p, ⟨hp, (ffz_pred_iff resp.defaultSets p).mpr hex⟩, hme⟩

end Chatuino
